import Mathlib

/-!
# Verification of the match-scoring and rationale-generation core

Shallow embedding of the scoring pipeline of the rotary networking app
(`calculateMatchScore`, `cosineSimilarity`, `matchesNeedAsset`,
`generateSimpleRationale`, `generateMatchRationale`, and the per-candidate
scoring loops of the generate-top3 / generate-brainstorm endpoints).

Modelling conventions:
* JavaScript strings are Lean `String`s; `str.includes(sub)` is modelled by
  `jsIncludes` (substring containment), `toLowerCase` by `jsToLower`
  (both treat ASCII letters exactly as JavaScript does on the ASCII inputs
  used by the tables of the source); `trim`, `split` likewise have
  structurally recursive models `jsTrim`, `jsSplitComma`, `jsSplitWs`.
* Possibly-`undefined` object fields are `Option String`; JavaScript
  truthiness of a string field (`undefined` and `""` are falsy) is `jsTruthy`.
* JavaScript numbers are modelled as elements of a linear ordered field with
  a floor (instantiated at `ℚ` for executable witnesses and at `ℝ` where the
  value flows in from `cosineSimilarity`); `Math.round` is `jsRound`
  (round half towards positive infinity), `Math.min`/`Math.max` are
  `min`/`max`.
* Throwing code is modelled with `Except String`; external calls (OpenAI,
  JSON.parse of a stored embedding) appear as `Except`-valued parameters.
* Display-only strings of the source (the per-category `description`,
  `reasoning`, `insights`, `status`, `percentage` fields and the
  `matches` message list), which are never read back by any logic, are not
  modelled; each breakdown category keeps its `factor` label, `points` and
  `maxPoints`, which is everything the scoring logic and the claims use.
-/

/-! ## JavaScript string primitives -/

/-- Does `needle` occur as a prefix of `hay`? (character lists) -/
def prefixMatches : List Char → List Char → Bool
  | [], _ => true
  | _ :: _, [] => false
  | c :: cs, d :: ds => c == d && prefixMatches cs ds

/-- Does `needle` occur as a contiguous substring of `hay`? -/
def subSearch (needle : List Char) : List Char → Bool
  | [] => prefixMatches needle []
  | c :: t => prefixMatches needle (c :: t) || subSearch needle t

/-- JavaScript `s.includes(sub)`. -/
def jsIncludes (s sub : String) : Bool :=
  subSearch sub.toList s.toList

/-- ASCII lower-casing of one character (what `toLowerCase` does on the
ASCII inputs used by the matcher tables). -/
def charLower (c : Char) : Char :=
  if 'A' ≤ c && c ≤ 'Z' then Char.ofNat (c.toNat + 32) else c

/-- JavaScript `s.toLowerCase()`. -/
def jsToLower (s : String) : String := ⟨s.data.map charLower⟩

/-- Strip leading and trailing whitespace from a character list. -/
def trimChars (l : List Char) : List Char :=
  ((l.dropWhile Char.isWhitespace).reverse.dropWhile Char.isWhitespace).reverse

/-- JavaScript `s.trim()`. -/
def jsTrim (s : String) : String := ⟨trimChars s.data⟩

/-- Split a character list at every separator character. -/
def splitPredAux (p : Char → Bool) : List Char → List Char → List (List Char)
  | [], acc => [acc.reverse]
  | c :: rest, acc =>
    if p c then acc.reverse :: splitPredAux p rest []
    else splitPredAux p rest (c :: acc)

/-- JavaScript `s.split(',')`. -/
def jsSplitComma (s : String) : List String :=
  (splitPredAux (· == ',') s.data []).map String.mk

/-- JavaScript `s.split(/\s+/)`, modulo empty pieces at collapsed
whitespace runs; the only consumer filters on `word.length > 3`, so the
empty pieces are irrelevant. -/
def jsSplitWs (s : String) : List String :=
  (splitPredAux Char.isWhitespace s.data []).map String.mk

/-- JavaScript truthiness of a possibly-`undefined` string field:
`undefined` and the empty string are falsy. -/
def jsTruthy : Option String → Bool
  | none => false
  | some s => !(s == "")

/-- JavaScript `field || ''`. -/
def orEmpty (o : Option String) : String := o.getD ""

/-- JavaScript `field || defaultText` on a string field. -/
def jsOr (o : Option String) (d : String) : String :=
  if jsTruthy o then orEmpty o else d

/-- How an `undefined` field renders inside a JavaScript template literal. -/
def jsShow (o : Option String) : String := o.getD "undefined"

/-- `Math.round`: round half towards positive infinity. -/
def jsRound {K : Type} [LinearOrderedField K] [FloorRing K] (x : K) : ℤ :=
  ⌊x + 1 / 2⌋

/-! ## Data model -/

/-- An attendee profile row (`members` table).  Every text column may be
absent (`NULL`/`undefined`). -/
structure Profile where
  member_id : Option String
  name : Option String
  org : Option String
  role : Option String
  industry : Option String
  city : Option String
  rev_driver : Option String
  current_constraint : Option String
  assets : Option String
  needs : Option String
  fun_fact : Option String
  consent : Bool
deriving DecidableEq

/-- The optional collaboration-research object handed to
`calculateMatchScore` as `complementaryValueResearch`. -/
structure ComplementaryValueResearch where
  creative_collaboration_ideas : Option (List String)
  value_rating : Option String
  top_3_opportunities : Option (List String)
  direct_matches : Option String
  network_value : Option String
deriving DecidableEq

/-- One category of the score breakdown (display-only fields omitted). -/
structure Category where
  factor : String
  points : ℤ
  maxPoints : ℤ
deriving DecidableEq

/-- The `summary` object of a score result. -/
structure Summary where
  earned : ℤ
  possible : ℤ
  percentage : ℤ
  grade : String
deriving DecidableEq

/-- The value returned by `calculateMatchScore`. -/
structure ScoreResult where
  score : ℤ
  breakdown : List Category
  fullBreakdown : List Category
  summary : Summary
deriving DecidableEq

/-- `member.needs ? member.needs.split(',').map(s => s.trim().toLowerCase()) : []` -/
def splitCommaTrimLower (o : Option String) : List String :=
  if jsTruthy o then (jsSplitComma (orEmpty o)).map (fun x => jsToLower (jsTrim x)) else []

/-! ## Semantic compatibility matcher (`matchesNeedAsset`) -/

/-- The curated synonym/cluster table (`keywords` in the source), in source
order. -/
def keywordsTable : List (String × List String) :=
  [ ("marketing", ["seo", "social media", "content", "brand", "advertising",
      "promotion", "digital marketing", "pr", "public relations", "campaign"]),
    ("seo", ["marketing", "digital marketing", "google", "search", "content", "web"]),
    ("social media", ["marketing", "content creation", "brand", "instagram",
      "facebook", "linkedin", "tiktok"]),
    ("branding", ["marketing", "design", "logo", "identity", "brand strategy"]),
    ("content", ["marketing", "writing", "blog", "social media", "video", "copywriting"]),
    ("sales", ["lead generation", "business development", "revenue", "customers", "pipeline"]),
    ("lead generation", ["sales", "marketing", "outreach", "prospecting", "demand generation"]),
    ("business development", ["sales", "partnerships", "growth", "revenue", "clients"]),
    ("tech", ["technology", "software", "development", "engineering", "it", "technical"]),
    ("software", ["tech", "development", "app", "platform", "saas", "coding"]),
    ("web development", ["tech", "software", "website", "coding", "programming", "web design"]),
    ("app development", ["tech", "software", "mobile", "coding"]),
    ("automation", ["tech", "software", "efficiency", "tools", "systems"]),
    ("finance", ["accounting", "bookkeeping", "cfo", "financial planning", "capital"]),
    ("funding", ["capital", "investment", "money", "financing", "fundraising"]),
    ("investment", ["capital", "funding", "money", "financing", "venture"]),
    ("operations", ["management", "efficiency", "process", "logistics", "systems"]),
    ("logistics", ["operations", "supply chain", "shipping", "delivery", "distribution"]),
    ("hiring", ["talent", "recruitment", "hr", "staffing", "team building"]),
    ("talent", ["hiring", "recruitment", "team", "employees", "hr"]),
    ("strategy", ["planning", "consulting", "advisory", "business strategy", "growth strategy"]),
    ("consulting", ["advisory", "strategy", "expertise", "guidance"]),
    ("partnerships", ["collaboration", "alliances", "business development", "joint venture"]) ]

/-- Does the (re-lowercased) phrase contain the cluster key or one of its
synonyms? -/
def clusterHit (phrase : String) (entry : String × List String) : Bool :=
  jsIncludes (jsToLower phrase) entry.1 ||
    entry.2.any (fun syn => jsIncludes (jsToLower phrase) syn)

/-- Rule 1 of `matchesNeedAsset`: direct substring containment either way. -/
def directMatch (need asset : String) : Bool :=
  jsIncludes asset need || jsIncludes need asset

/-- Rule 2 of `matchesNeedAsset`: both phrases hit the same semantic cluster. -/
def clusterMatch (need asset : String) : Bool :=
  keywordsTable.any (fun e => clusterHit need e && clusterHit asset e)

/-- The `needPatterns` table: each case-insensitive alternation regex of the
source is a plain disjunction of literal substrings, modelled as the list of
its alternatives. -/
def needPatterns : List (List String × List String) :=
  [ (["customer", "client", "lead"], ["sales", "marketing", "business development", "crm"]),
    (["revenue", "money", "profit"], ["sales", "marketing", "finance", "pricing", "monetization"]),
    (["website", "web", "online"], ["web", "development", "design", "digital", "tech"]),
    (["brand", "awareness", "visibility"], ["marketing", "pr", "social", "media", "branding"]),
    (["scale", "growth", "expand"], ["strategy", "consulting", "automation", "systems", "operations"]),
    (["team", "hire", "talent"], ["hr", "recruitment", "staffing", "hiring"]),
    (["legal", "contract", "compliance"], ["law", "attorney", "legal"]),
    (["capital", "funding", "money"], ["investment", "finance", "funding", "capital"]) ]

/-- `/lit1|lit2|.../i.test(s)` for an alternation of literal substrings. -/
def regexTestAlts (alts : List String) (s : String) : Bool :=
  alts.any (fun a => jsIncludes (jsToLower s) a)

/-- Rule 3 of `matchesNeedAsset`: the directional pattern-pair table. -/
def patternMatch (need asset : String) : Bool :=
  needPatterns.any (fun p => regexTestAlts p.1 need && regexTestAlts p.2 asset)

/-- The inline `matchesNeedAsset(need, asset)` helper of
`calculateMatchScore`: first rule that fires wins. -/
def matchesNeedAsset (need asset : String) : Bool :=
  directMatch need asset || clusterMatch need asset || patternMatch need asset

/-! ## Complementary value exchange -/

/-- The doubly nested loop counting hits of `matchesNeedAsset(need, asset)`
for `asset of assets` and `need of needs`. -/
def countAssetNeedHits (assets needs : List String) : ℕ :=
  (assets.map (fun asset => needs.countP (fun need => matchesNeedAsset need asset))).sum

/-- `complementaryMatches`: assets-vs-needs in both directions plus the two
constraint-to-asset passes. -/
def complementaryMatches (m1 m2 : Profile) : ℕ :=
  let m1Needs := splitCommaTrimLower m1.needs
  let m1Assets := splitCommaTrimLower m1.assets
  let m2Needs := splitCommaTrimLower m2.needs
  let m2Assets := splitCommaTrimLower m2.assets
  let constraint1Lower := jsToLower (orEmpty m1.current_constraint)
  let constraint2Lower := jsToLower (orEmpty m2.current_constraint)
  countAssetNeedHits m1Assets m2Needs +
  countAssetNeedHits m2Assets m1Needs +
  (if constraint2Lower ≠ "" then
      m1Assets.countP (fun asset => matchesNeedAsset constraint2Lower asset)
    else 0) +
  (if constraint1Lower ≠ "" then
      m2Assets.countP (fun asset => matchesNeedAsset constraint1Lower asset)
    else 0)

/-- The keyword-match-derived category value: 4 points per match, capped at
the category max of 20. -/
def complementaryBasePoints (m1 m2 : Profile) : ℤ :=
  min (4 * (complementaryMatches m1 m2 : ℤ)) 20

/-- The research-boost block: creative-collaboration-idea count first, then
the High/Medium/Low `value_rating`, each only ever raising the running value
with `Math.max`. -/
def applyResearchBoost (base : ℤ) (r : ComplementaryValueResearch) : ℤ :=
  let creativeIdeasCount : ℤ := ((r.creative_collaboration_ideas.getD []).length : ℤ)
  let valueRating := jsToLower (orEmpty r.value_rating)
  let p1 :=
    if creativeIdeasCount ≥ 4 then max base 16
    else if creativeIdeasCount ≥ 2 then max base 12
    else if creativeIdeasCount ≥ 1 then max base 8
    else base
  if valueRating == "high" then max p1 14
  else if valueRating == "medium" then max p1 9
  else if valueRating == "low" && creativeIdeasCount == 0 then max p1 4
  else p1

/-- Final `complementaryPoints` of the Complementary Value Exchange category. -/
def complementaryPoints (m1 m2 : Profile)
    (research : Option ComplementaryValueResearch) : ℤ :=
  match research with
  | none => complementaryBasePoints m1 m2
  | some r => applyResearchBoost (complementaryBasePoints m1 m2) r

/-! ## Market alignment -/

/-- Tail of the `\$\d+[mk]` pattern after the first digit: more digits, then
`m` or `k`. -/
def mkTail : List Char → Bool
  | [] => false
  | c :: rest => c == 'm' || c == 'k' || (c.isDigit && mkTail rest)

/-- Does `\$\d+[mk]` match anywhere in the character list? -/
def dollarNumMK : List Char → Bool
  | [] => false
  | c :: rest =>
    (c == '$' &&
      (match rest with
       | [] => false
       | d :: ds => d.isDigit && mkTail ds)) ||
    dollarNumMK rest

/-- Tail of the `\d+ year` pattern after the first digit: more digits, then
the literal `" year"`. -/
def yearTail : List Char → Bool
  | [] => false
  | c :: rest =>
    prefixMatches (String.toList " year") (c :: rest) || (c.isDigit && yearTail rest)

/-- Does `\d+ year` match anywhere in the character list? -/
def numYear : List Char → Bool
  | [] => false
  | c :: rest => (c.isDigit && yearTail rest) || numYear rest

/-- `funFactLower.match(/\$\d+[mk]|\d+ year|million|billion|national|awarded/i)`
as a boolean (the match result is only ever used for truthiness). -/
def isEstablished (funFactLower : String) : Bool :=
  dollarNumMK funFactLower.toList || numYear funFactLower.toList ||
  jsIncludes funFactLower "million" || jsIncludes funFactLower "billion" ||
  jsIncludes funFactLower "national" || jsIncludes funFactLower "awarded"

/-- The Market Alignment category (0-15 points). -/
def marketPoints (m1 m2 : Profile) : ℤ :=
  let rev1 := jsToLower (orEmpty m1.rev_driver)
  let rev2 := jsToLower (orEmpty m2.rev_driver)
  let isB2B1 := jsIncludes rev1 "b2b" || jsIncludes rev1 "enterprise" ||
    jsIncludes rev1 "saas" || jsIncludes rev1 "consulting" || jsIncludes rev1 "agency"
  let isB2B2 := jsIncludes rev2 "b2b" || jsIncludes rev2 "enterprise" ||
    jsIncludes rev2 "saas" || jsIncludes rev2 "consulting" || jsIncludes rev2 "agency"
  let isB2C1 := jsIncludes rev1 "retail" || jsIncludes rev1 "consumer" ||
    jsIncludes rev1 "ecommerce" || jsIncludes rev1 "subscription"
  let isB2C2 := jsIncludes rev2 "retail" || jsIncludes rev2 "consumer" ||
    jsIncludes rev2 "ecommerce" || jsIncludes rev2 "subscription"
  let modelPts : ℤ :=
    if (isB2B1 && isB2B2) || (isB2C1 && isB2C2) then 5
    else if (isB2B1 && isB2C2) || (isB2C1 && isB2B2) then 3
    else 0
  let role1 := jsToLower (orEmpty m1.role)
  let role2 := jsToLower (orEmpty m2.role)
  let funfact1 := jsToLower (orEmpty m1.fun_fact)
  let funfact2 := jsToLower (orEmpty m2.fun_fact)
  let isFounder1 := jsIncludes role1 "founder" || jsIncludes role1 "ceo" ||
    jsIncludes role1 "owner"
  let isFounder2 := jsIncludes role2 "founder" || jsIncludes role2 "ceo" ||
    jsIncludes role2 "owner"
  let isEstablished1 := isEstablished funfact1
  let isEstablished2 := isEstablished funfact2
  let founderPts : ℤ := if isFounder1 && isFounder2 then 5 else 0
  let establishedPts : ℤ :=
    if isEstablished1 && isEstablished2 then 3
    else if (isEstablished1 && !isEstablished2) || (!isEstablished1 && isEstablished2) then 2
    else 0
  let constraintPts : ℤ :=
    if jsTruthy m1.current_constraint && jsTruthy m2.current_constraint then 2 else 0
  min (modelPts + founderPts + establishedPts + constraintPts) 15

/-! ## Geographic and strategic categories -/

/-- The Geographic & Logistical Synergy category (0-5 points). -/
def locationPoints (m1 m2 : Profile) : ℤ :=
  let city1 := jsTrim (jsToLower (orEmpty m1.city))
  let city2 := jsTrim (jsToLower (orEmpty m2.city))
  if !(city1 == "") && !(city2 == "") then
    (if city1 == city2 then 5 else 2)
  else 2

/-- The `crossIndustrySynergies` lookup table (keys and display values, in
source order). -/
def crossIndustrySynergies : List (String × String) :=
  [ ("technology-marketing",
      "Tech can build tools marketing needs; Marketing can bring tech to market"),
    ("technology-finance",
      "Tech provides fintech innovation; Finance provides investment capital"),
    ("technology-real estate",
      "Tech enables PropTech solutions; Real estate provides distribution channels"),
    ("marketing-real estate",
      "Marketing drives property visibility; Real estate provides case studies"),
    ("marketing-finance",
      "Marketing drives client acquisition; Finance provides campaign capital"),
    ("marketing-food & hospitality",
      "Marketing fills seats/tables; F&B provides authentic brand stories"),
    ("technology-food & hospitality",
      "Tech streamlines operations/ordering; F&B provides user testing ground"),
    ("real estate-legal",
      "Real estate needs legal for transactions; Legal needs real estate clients"),
    ("finance-legal",
      "Finance needs legal for compliance; Legal needs finance for M&A deals"),
    ("online education-marketing",
      "Education needs student acquisition; Marketing needs training content"),
    ("consulting-*",
      "Consulting can analyze ANY business; Every business can provide consulting case studies") ]

/-- `crossIndustrySynergies[key]` truthiness. -/
def synergyLookup (k : String) : Bool :=
  (crossIndustrySynergies.find? (fun e => e.1 == k)).isSome

/-- The Strategic Growth Opportunities category (0-10 points).  The
`sameIndustryValue` table of the source only selects display text; the
same-industry branch always adds 4 points. -/
def strategyPoints (m1 m2 : Profile) : ℤ :=
  let ind1 := jsToLower (orEmpty m1.industry)
  let ind2 := jsToLower (orEmpty m2.industry)
  let m1Assets := splitCommaTrimLower m1.assets
  let m2Assets := splitCommaTrimLower m2.assets
  let constraint1Lower := jsToLower (orEmpty m1.current_constraint)
  let constraint2Lower := jsToLower (orEmpty m2.current_constraint)
  let industryPts : ℤ :=
    if !(ind1 == "") && !(ind2 == "") && !(ind1 == ind2) then
      (if synergyLookup (ind1 ++ "-" ++ ind2) then 6
       else if synergyLookup (ind2 ++ "-" ++ ind1) then 6
       else if synergyLookup (ind1 ++ "-*") then 4
       else if synergyLookup (ind2 ++ "-*") then 4
       else 2)
    else if !(ind1 == "") && !(ind2 == "") && ind1 == ind2 then 4
    else 0
  let solutionPts1 : ℤ :=
    if jsTruthy m1.current_constraint && m2Assets.length > 0 then
      (if (m2Assets.filter (fun asset =>
            (jsSplitWs constraint1Lower).any
              (fun word => word.length > 3 && jsIncludes asset word))).length > 0
       then 3 else 0)
    else 0
  let solutionPts2 : ℤ :=
    if jsTruthy m2.current_constraint && m1Assets.length > 0 then
      (if (m1Assets.filter (fun asset =>
            (jsSplitWs constraint2Lower).any
              (fun word => word.length > 3 && jsIncludes asset word))).length > 0
       then 3 else 0)
    else 0
  min (industryPts + solutionPts1 + solutionPts2) 10

/-! ## The composite scorer -/

/-- Semantic Profile Similarity points: `Math.round(similarity * 20)`. -/
def semanticPoints {K : Type} [LinearOrderedField K] [FloorRing K] (similarity : K) : ℤ :=
  jsRound (similarity * 20)

/-- `calculateMatchScore(member1, member2, similarity, complementaryValueResearch)`.
The similarity argument lives in any linear ordered field with a floor
(`ℚ` for executable instances, `ℝ` when fed from `cosineSimilarity`). -/
def calculateMatchScore {K : Type} [LinearOrderedField K] [FloorRing K]
    (m1 m2 : Profile) (similarity : K)
    (research : Option ComplementaryValueResearch) : ScoreResult :=
  if m1.member_id = m2.member_id then
    { score := 0, breakdown := [], fullBreakdown := [],
      summary := ⟨0, 100, 0, "N/A"⟩ }
  else
    let universalPoints : ℤ := 30
    let semPts := semanticPoints similarity
    let compPts := complementaryPoints m1 m2 research
    let mktPts := marketPoints m1 m2
    let locPts := locationPoints m1 m2
    let strPts := strategyPoints m1 m2
    let universalCategory : Category := ⟨"Universal Business Potential", universalPoints, 30⟩
    let semanticCategory : Category := ⟨"Semantic Profile Similarity", semPts, 20⟩
    let complementaryCategory : Category := ⟨"Complementary Value Exchange", compPts, 20⟩
    let marketCategory : Category := ⟨"Market Alignment", mktPts, 15⟩
    let locationCategory : Category := ⟨"Geographic & Logistical Synergy", locPts, 5⟩
    let strategyCategory : Category := ⟨"Strategic Growth Opportunities", strPts, 10⟩
    let totalScore := universalPoints + semPts + compPts + mktPts + locPts + strPts
    let maxPossiblePoints : ℤ := 100
    let normalizedScore := min totalScore maxPossiblePoints
    let overallPercentage :=
      jsRound (((normalizedScore : K) / (maxPossiblePoints : K)) * 100)
    { score := normalizedScore,
      breakdown := [universalCategory, semanticCategory, complementaryCategory,
        marketCategory, locationCategory, strategyCategory],
      fullBreakdown := [universalCategory, semanticCategory, complementaryCategory,
        marketCategory, locationCategory, strategyCategory],
      summary := ⟨normalizedScore, maxPossiblePoints, overallPercentage,
        if overallPercentage ≥ 85 then "A+"
        else if overallPercentage ≥ 75 then "A"
        else if overallPercentage ≥ 65 then "B+"
        else if overallPercentage ≥ 55 then "B"
        else "C+"⟩ }

/-! ## Vector similarity (`cosineSimilarity`) -/

/-- The accumulation loop `for (i = 0; i < n; i++) acc += v1[i] * v2[i]`. -/
noncomputable def dotOver (n : ℕ) (v1 v2 : List ℝ) : ℝ :=
  ∑ i ∈ Finset.range n, v1.getD i 0 * v2.getD i 0

/-- `cosineSimilarity(vec1, vec2)`: 0 when either vector is absent, the
lengths differ, or either accumulated norm is zero; otherwise the cosine.
Floating-point numbers are idealized as real numbers. -/
noncomputable def cosineSimilarity : Option (List ℝ) → Option (List ℝ) → ℝ
  | none, _ => 0
  | some _, none => 0
  | some v1, some v2 =>
    if v1.length = v2.length then
      let dotProduct := dotOver v1.length v1 v2
      let norm1 := dotOver v1.length v1 v1
      let norm2 := dotOver v1.length v2 v2
      if norm1 = 0 ∨ norm2 = 0 then 0
      else dotProduct / (Real.sqrt norm1 * Real.sqrt norm2)
    else 0

/-! ## The per-candidate scoring loop of generate-top3 / generate-brainstorm -/

/-- A candidate row joined with its stored embedding.  `embedding_ops`
models the outcome of `JSON.parse(candidate.embedding_ops)`: `.error` is a
malformed stored vector (the parse throws), `.ok` the parsed vector. -/
structure Candidate where
  profile : Profile
  embedding_ops : Except String (List ℝ)

/-- Is this the poisoned record whose scoring throws? -/
def isPoisoned (c : Candidate) : Bool :=
  match c.embedding_ops with
  | .error _ => true
  | .ok _ => false

/-- One scored entry of the `scored` array (candidate spread plus score
data; `error` is set on the catch path). -/
structure ScoredCandidate where
  candidate : Candidate
  score : ℤ
  breakdown : List Category
  fullBreakdown : List Category
  summary : Summary
  similarity : ℝ
  error : Option String

/-- The body of `candidates.map((candidate, idx) => { try ... catch ... })`:
a throwing candidate becomes a zero-score entry with its error recorded
(the logged message), all others are scored with `calculateMatchScore`. -/
noncomputable def scoreOneCandidate (member : Profile)
    (memberEmbedding : Option (List ℝ)) (c : Candidate) : ScoredCandidate :=
  match c.embedding_ops with
  | .error msg =>
    { candidate := c, score := 0, breakdown := [], fullBreakdown := [],
      summary := ⟨0, 100, 0, "F"⟩, similarity := 0, error := some msg }
  | .ok candidateEmbedding =>
    let similarity := cosineSimilarity memberEmbedding (some candidateEmbedding)
    let scoreData := calculateMatchScore member c.profile similarity none
    { candidate := c, score := scoreData.score, breakdown := scoreData.breakdown,
      fullBreakdown := scoreData.fullBreakdown, summary := scoreData.summary,
      similarity := similarity, error := none }

/-- The whole scoring map over the candidate pool. -/
noncomputable def scoreCandidatePool (member : Profile)
    (memberEmbedding : Option (List ℝ)) (candidates : List Candidate) :
    List ScoredCandidate :=
  candidates.map (scoreOneCandidate member memberEmbedding)

/-- `scored.filter(s => s.score > 0)` followed by
`filtered.sort((a, b) => b.score - a.score)` (descending by score). -/
noncomputable def rankCandidatePool (member : Profile)
    (memberEmbedding : Option (List ℝ)) (candidates : List Candidate) :
    List ScoredCandidate :=
  ((scoreCandidatePool member memberEmbedding candidates).filter
    (fun s => 0 < s.score)).mergeSort (fun a b => b.score ≤ a.score)

/-! ## Rationale generation -/

/-- The three rationale fields of a match record. -/
structure Rationale where
  rationale_ops : String
  creative_angle : String
  intro_basis : String
deriving DecidableEq

/-- `member.needs ? member.needs.split(',').map(n => n.trim()) : []` -/
def splitCommaTrim (o : Option String) : List String :=
  if jsTruthy o then (jsSplitComma (orEmpty o)).map jsTrim else []

/-- `generateSimpleRationale(member1, member2)`: the deterministic fallback
rationale generator (pure, no external calls). -/
def generateSimpleRationale (m1 m2 : Profile) : Rationale :=
  let needs1 := splitCommaTrim m1.needs
  let assets2 := splitCommaTrim m2.assets
  let needs2 := splitCommaTrim m2.needs
  let assets1 := splitCommaTrim m1.assets
  let matches1 := needs1.flatMap (fun need =>
    (assets2.filter (fun asset =>
        jsIncludes (jsToLower asset) (jsToLower need) || jsIncludes (jsToLower need) (jsToLower asset))).map
      (fun asset =>
        jsShow m2.name ++ "'s " ++ asset ++ " can help with your need for " ++ need))
  let matches2 := needs2.flatMap (fun need =>
    (assets1.filter (fun asset =>
        jsIncludes (jsToLower asset) (jsToLower need) || jsIncludes (jsToLower need) (jsToLower asset))).map
      (fun asset =>
        "Your " ++ asset ++ " can help " ++ jsShow m2.name ++ "'s need for " ++ need))
  let found := matches1 ++ matches2
  let rationale_ops :=
    if found.length > 0 then found.headD ""
    else "Both in " ++ jsOr m1.industry "business" ++ " and " ++
      jsOr m2.industry "business" ++ ", potential for collaboration"
  let creative_angle :=
    if jsTruthy m1.fun_fact && jsTruthy m2.fun_fact then "Connect over shared interests"
    else "Explore synergies between " ++ jsShow m1.org ++ " and " ++ jsShow m2.org
  let intro_basis :=
    "Start by discussing " ++ jsOr m1.current_constraint "current challenges" ++
      " and how " ++ jsShow m2.org ++ "'s expertise might help"
  ⟨rationale_ops, creative_angle, intro_basis⟩

/-- `generateMatchRationale(member1, member2, ...)` with its external calls
made explicit: the three staged OpenAI calls appear as `Except`-valued
parameters (`.error` = the call threw or timed out).  The try block runs the
stages in order; the Stage 3 response is rejected when any of the three
required fields is falsy (missing fields are modelled as `""`); the catch
block returns `generateSimpleRationale`. -/
def generateMatchRationale (m1 m2 : Profile)
    (industryResearch : Except String String)
    (companyResearch : Except String String)
    (synthesis : Except String Rationale) : Rationale :=
  match industryResearch with
  | .error _ => generateSimpleRationale m1 m2
  | .ok _ =>
    match companyResearch with
    | .error _ => generateSimpleRationale m1 m2
    | .ok _ =>
      match synthesis with
      | .error _ => generateSimpleRationale m1 m2
      | .ok result =>
        if result.rationale_ops == "" || result.creative_angle == "" ||
            result.intro_basis == "" then
          generateSimpleRationale m1 m2
        else result

/-! ## Basic bounds on the scoring categories -/

lemma complementaryBasePoints_nonneg (m1 m2 : Profile) :
    0 ≤ complementaryBasePoints m1 m2 := by
  unfold complementaryBasePoints
  have : (0 : ℤ) ≤ (complementaryMatches m1 m2 : ℤ) := Int.ofNat_nonneg _
  omega

lemma applyResearchBoost_ge_base (base : ℤ) (r : ComplementaryValueResearch) :
    base ≤ applyResearchBoost base r := by
  unfold applyResearchBoost
  dsimp only
  split_ifs <;> omega

lemma complementaryPoints_ge_base (m1 m2 : Profile)
    (r : Option ComplementaryValueResearch) :
    complementaryBasePoints m1 m2 ≤ complementaryPoints m1 m2 r := by
  cases r with
  | none => exact le_refl _
  | some res => exact applyResearchBoost_ge_base _ res

lemma complementaryPoints_nonneg (m1 m2 : Profile)
    (r : Option ComplementaryValueResearch) :
    0 ≤ complementaryPoints m1 m2 r :=
  le_trans (complementaryBasePoints_nonneg m1 m2) (complementaryPoints_ge_base m1 m2 r)

lemma marketPoints_nonneg (m1 m2 : Profile) : 0 ≤ marketPoints m1 m2 := by
  unfold marketPoints
  dsimp only
  split_ifs <;> omega

lemma locationPoints_ge_two (m1 m2 : Profile) : 2 ≤ locationPoints m1 m2 := by
  unfold locationPoints
  dsimp only
  split_ifs <;> omega

lemma strategyPoints_nonneg (m1 m2 : Profile) : 0 ≤ strategyPoints m1 m2 := by
  unfold strategyPoints
  dsimp only
  split_ifs <;> omega

lemma semanticPoints_ge {K : Type} [LinearOrderedField K] [FloorRing K]
    {s : K} (h : -1 ≤ s) : -20 ≤ semanticPoints s := by
  unfold semanticPoints jsRound
  have : ((-20 : ℤ) : K) ≤ s * 20 + 1 / 2 := by push_cast; nlinarith
  exact Int.le_floor.mpr this

lemma semanticPoints_le {K : Type} [LinearOrderedField K] [FloorRing K]
    {s : K} (h : s ≤ 1) : semanticPoints s ≤ 20 := by
  unfold semanticPoints jsRound
  have h21 : s * 20 + 1 / 2 < ((21 : ℤ) : K) := by push_cast; nlinarith
  have := Int.floor_lt.mpr h21
  omega

/-! ## Unfolding lemmas for `calculateMatchScore` -/

lemma calculateMatchScore_self {K : Type} [LinearOrderedField K] [FloorRing K]
    (m1 m2 : Profile) (s : K) (r : Option ComplementaryValueResearch)
    (h : m1.member_id = m2.member_id) :
    calculateMatchScore m1 m2 s r =
      { score := 0, breakdown := [], fullBreakdown := [],
        summary := ⟨0, 100, 0, "N/A"⟩ } := by
  unfold calculateMatchScore
  rw [if_pos h]

lemma calculateMatchScore_score {K : Type} [LinearOrderedField K] [FloorRing K]
    (m1 m2 : Profile) (s : K) (r : Option ComplementaryValueResearch)
    (h : m1.member_id ≠ m2.member_id) :
    (calculateMatchScore m1 m2 s r).score =
      min (30 + semanticPoints s + complementaryPoints m1 m2 r +
        marketPoints m1 m2 + locationPoints m1 m2 + strategyPoints m1 m2) 100 := by
  unfold calculateMatchScore
  rw [if_neg h]

lemma calculateMatchScore_breakdown {K : Type} [LinearOrderedField K] [FloorRing K]
    (m1 m2 : Profile) (s : K) (r : Option ComplementaryValueResearch)
    (h : m1.member_id ≠ m2.member_id) :
    (calculateMatchScore m1 m2 s r).breakdown =
      [⟨"Universal Business Potential", 30, 30⟩,
       ⟨"Semantic Profile Similarity", semanticPoints s, 20⟩,
       ⟨"Complementary Value Exchange", complementaryPoints m1 m2 r, 20⟩,
       ⟨"Market Alignment", marketPoints m1 m2, 15⟩,
       ⟨"Geographic & Logistical Synergy", locationPoints m1 m2, 5⟩,
       ⟨"Strategic Growth Opportunities", strategyPoints m1 m2, 10⟩] := by
  unfold calculateMatchScore
  rw [if_neg h]

lemma calculateMatchScore_score_lb {K : Type} [LinearOrderedField K] [FloorRing K]
    (m1 m2 : Profile) {s : K} (r : Option ComplementaryValueResearch)
    (h : m1.member_id ≠ m2.member_id) (hs : -1 ≤ s) :
    12 ≤ (calculateMatchScore m1 m2 s r).score := by
  rw [calculateMatchScore_score m1 m2 s r h]
  have h1 := semanticPoints_ge (K := K) hs
  have h2 := complementaryPoints_nonneg m1 m2 r
  have h3 := marketPoints_nonneg m1 m2
  have h4 := locationPoints_ge_two m1 m2
  have h5 := strategyPoints_nonneg m1 m2
  omega

lemma calculateMatchScore_score_le_100 {K : Type} [LinearOrderedField K] [FloorRing K]
    (m1 m2 : Profile) (s : K) (r : Option ComplementaryValueResearch) :
    (calculateMatchScore m1 m2 s r).score ≤ 100 := by
  by_cases h : m1.member_id = m2.member_id
  · rw [calculateMatchScore_self m1 m2 s r h]
    norm_num
  · rw [calculateMatchScore_score m1 m2 s r h]
    omega

lemma semanticPoints_nonneg {K : Type} [LinearOrderedField K] [FloorRing K]
    {s : K} (h : 0 ≤ s) : 0 ≤ semanticPoints s := by
  unfold semanticPoints jsRound
  have : ((0 : ℤ) : K) ≤ s * 20 + 1 / 2 := by push_cast; nlinarith
  exact Int.le_floor.mpr this

/-! ## Concrete profiles used by counterexamples and witnesses -/

/-- A minimal consenting profile with id `member-a` and every text field
absent. -/
def pA : Profile :=
  ⟨some "member-a", none, none, none, none, none, none, none, none, none, none, true⟩

/-- A minimal consenting profile with id `member-b`. -/
def pB : Profile :=
  ⟨some "member-b", none, none, none, none, none, none, none, none, none, none, true⟩

/-- A collaboration-research object with every field absent. -/
def researchEmpty : ComplementaryValueResearch := ⟨none, none, none, none, none⟩

/-! ## C1: total score = sum of category points clamped to [0, 100] -/

/-- C1, counterexample: the total is clamped only from above
(`Math.min(totalScore, 100)`), never from below, so a similarity of `-3`
drives the total of two otherwise-empty distinct profiles to `-28`, which is
neither in `[0, 100]` nor equal to the sum clamped to `[0, 100]` (that would
be `0`). -/
theorem calculateMatchScore_total_negative_at_minus_three :
    (calculateMatchScore (K := ℚ) pA pB (-3) none).score < 0 := by
  rw [calculateMatchScore_score pA pB (-3) none (by decide)]
  have h1 : complementaryPoints pA pB none = 0 := by decide
  have h2 : marketPoints pA pB = 0 := by decide
  have h3 : locationPoints pA pB = 2 := by decide
  have h4 : strategyPoints pA pB = 0 := by decide
  have h5 : semanticPoints ((-3 : ℚ)) = -60 := by norm_num [semanticPoints, jsRound]
  rw [h1, h2, h3, h4, h5]
  norm_num

/-- C1, amended: for any two profiles, any research object and any
similarity, the total returned by `calculateMatchScore` equals the sum of
the category points clamped *above* at 100 (there is no lower clamp); and
whenever the similarity lies in `[-1, 1]` — the range `cosineSimilarity` can
produce — the total does lie in `[0, 100]`, research boost included. -/
theorem calculateMatchScore_total_clamped {K : Type}
    [LinearOrderedField K] [FloorRing K] (m1 m2 : Profile) (s : K)
    (r : Option ComplementaryValueResearch) :
    (calculateMatchScore m1 m2 s r).score =
      min (((calculateMatchScore m1 m2 s r).breakdown.map Category.points).sum) 100 ∧
    (-1 ≤ s → s ≤ 1 →
      0 ≤ (calculateMatchScore m1 m2 s r).score ∧
      (calculateMatchScore m1 m2 s r).score ≤ 100) := by
  constructor
  · by_cases h : m1.member_id = m2.member_id
    · rw [calculateMatchScore_self m1 m2 s r h]
      norm_num
    · rw [calculateMatchScore_score m1 m2 s r h,
        calculateMatchScore_breakdown m1 m2 s r h]
      simp only [List.map_cons, List.map_nil, List.sum_cons, List.sum_nil]
      ring_nf
  · intro hs1 _
    refine ⟨?_, calculateMatchScore_score_le_100 m1 m2 s r⟩
    by_cases h : m1.member_id = m2.member_id
    · rw [calculateMatchScore_self m1 m2 s r h]
    · linarith [calculateMatchScore_score_lb m1 m2 r h hs1]

/-- C1, witness at similarity 1. -/
theorem calculateMatchScore_total_clamped_witness :
    (-1 : ℚ) ≤ 1 ∧ (1 : ℚ) ≤ 1 ∧
    (0 ≤ (calculateMatchScore (K := ℚ) pA pB 1 none).score ∧
     (calculateMatchScore (K := ℚ) pA pB 1 none).score ≤ 100) :=
  ⟨by norm_num, by norm_num,
    (calculateMatchScore_total_clamped pA pB (1 : ℚ) none).2 (by norm_num) (by norm_num)⟩

/-! ## C2: the 30-point baseline floor -/

/-- C2, counterexample: the baseline is never *skipped*, but a negative
similarity can pull the total below it: two otherwise-empty consenting
distinct profiles at similarity `-1` (a value cosine similarity can attain)
score `30 - 20 + 0 + 0 + 2 + 0 = 12 < 30`. -/
theorem calculateMatchScore_below_baseline_at_minus_one :
    pA.member_id ≠ pB.member_id ∧ pA.consent = true ∧ pB.consent = true ∧
    (calculateMatchScore (K := ℚ) pA pB (-1) none).score < 30 := by
  refine ⟨by decide, rfl, rfl, ?_⟩
  rw [calculateMatchScore_score pA pB (-1) none (by decide)]
  have h1 : complementaryPoints pA pB none = 0 := by decide
  have h2 : marketPoints pA pB = 0 := by decide
  have h3 : locationPoints pA pB = 2 := by decide
  have h4 : strategyPoints pA pB = 0 := by decide
  have h5 : semanticPoints ((-1 : ℚ)) = -20 := by norm_num [semanticPoints, jsRound]
  rw [h1, h2, h3, h4, h5]
  norm_num

/-- C2, amended: for every pair of distinct-id consenting profiles and
every *nonnegative* similarity, the total is at least the 30-point baseline
(for similarities down to `-1` the guaranteed floor is only 12). -/
theorem calculateMatchScore_baseline_floor {K : Type}
    [LinearOrderedField K] [FloorRing K] (m1 m2 : Profile) (s : K)
    (r : Option ComplementaryValueResearch)
    (hid : m1.member_id ≠ m2.member_id)
    (hc1 : m1.consent = true) (hc2 : m2.consent = true) (hs : 0 ≤ s) :
    30 ≤ (calculateMatchScore m1 m2 s r).score := by
  rw [calculateMatchScore_score m1 m2 s r hid]
  have h1 := semanticPoints_nonneg (K := K) hs
  have h2 := complementaryPoints_nonneg m1 m2 r
  have h3 := marketPoints_nonneg m1 m2
  have h4 := locationPoints_ge_two m1 m2
  have h5 := strategyPoints_nonneg m1 m2
  omega

/-- C2, witness at similarity 0. -/
theorem calculateMatchScore_baseline_floor_witness :
    pA.member_id ≠ pB.member_id ∧ pA.consent = true ∧ pB.consent = true ∧
    (0 : ℚ) ≤ 0 ∧ 30 ≤ (calculateMatchScore (K := ℚ) pA pB 0 none).score :=
  ⟨by decide, rfl, rfl, le_refl 0,
    calculateMatchScore_baseline_floor pA pB (0 : ℚ) none (by decide) rfl rfl (le_refl 0)⟩

/-! ## C3: self-pairing scores zero with an empty breakdown -/

/-- C3: for every profile `p`, every similarity and every research object,
`calculateMatchScore(p, p, s, r)` has total score 0 and empty (full)
breakdowns. -/
theorem calculateMatchScore_self_zero {K : Type}
    [LinearOrderedField K] [FloorRing K] (p : Profile) (s : K)
    (r : Option ComplementaryValueResearch) :
    (calculateMatchScore p p s r).score = 0 ∧
    (calculateMatchScore p p s r).breakdown = [] ∧
    (calculateMatchScore p p s r).fullBreakdown = [] := by
  rw [calculateMatchScore_self p p s r rfl]
  exact ⟨rfl, rfl, rfl⟩

/-! ## C7: the research boost never lowers the complementary category -/

/-- C7: for any two non-self profiles and any similarity, attaching a
collaboration-research object never lowers the Complementary Value Exchange
category's points (index 2 of the breakdown) below the keyword-match-derived
value obtained without it. -/
theorem complementary_research_boost_monotone {K : Type}
    [LinearOrderedField K] [FloorRing K] (m1 m2 : Profile) (s : K)
    (r : ComplementaryValueResearch) (hid : m1.member_id ≠ m2.member_id) :
    (((calculateMatchScore m1 m2 s none).breakdown.getD 2 ⟨"", 0, 0⟩).points) ≤
      (((calculateMatchScore m1 m2 s (some r)).breakdown.getD 2 ⟨"", 0, 0⟩).points) := by
  rw [calculateMatchScore_breakdown m1 m2 s none hid,
    calculateMatchScore_breakdown m1 m2 s (some r) hid]
  simpa [List.getD] using complementaryPoints_ge_base m1 m2 (some r)

/-- C7, witness: empty research object on the two concrete profiles. -/
theorem complementary_research_boost_monotone_witness :
    pA.member_id ≠ pB.member_id ∧
    (((calculateMatchScore (K := ℚ) pA pB 0 none).breakdown.getD 2 ⟨"", 0, 0⟩).points) ≤
      (((calculateMatchScore (K := ℚ) pA pB 0
          (some researchEmpty)).breakdown.getD 2 ⟨"", 0, 0⟩).points) :=
  ⟨by decide, complementary_research_boost_monotone pA pB (0 : ℚ) researchEmpty (by decide)⟩

/-! ## C10: the self test compares only the `member_id` fields -/

/-- C10: any two profile objects whose `member_id` fields are equal — in
particular two distinct profiles that both lack a `member_id`, since
`undefined === undefined` — are treated as a self-pair: total 0 and empty
breakdown, whatever the other fields, the similarity and the research
object. -/
theorem self_test_compares_only_member_id {K : Type}
    [LinearOrderedField K] [FloorRing K] (m1 m2 : Profile) (s : K)
    (r : Option ComplementaryValueResearch)
    (h : m1.member_id = m2.member_id) :
    (calculateMatchScore m1 m2 s r).score = 0 ∧
    (calculateMatchScore m1 m2 s r).breakdown = [] := by
  rw [calculateMatchScore_self m1 m2 s r h]
  exact ⟨rfl, rfl⟩

/-- A profile with no `member_id` at all. -/
def pNoId1 : Profile :=
  ⟨none, some "Alice", some "Org1", none, none, none, none, none,
    some "marketing", none, none, true⟩

/-- A different profile that also lacks a `member_id`. -/
def pNoId2 : Profile :=
  ⟨none, some "Bob", some "Org2", none, none, none, none, none,
    none, some "marketing", none, true⟩

/-- C10, witness: two distinct profiles both missing `member_id` are scored
as a self-pair. -/
theorem self_test_compares_only_member_id_witness :
    pNoId1.member_id = pNoId2.member_id ∧
    ((calculateMatchScore (K := ℚ) pNoId1 pNoId2 1 none).score = 0 ∧
     (calculateMatchScore (K := ℚ) pNoId1 pNoId2 1 none).breakdown = []) :=
  ⟨rfl, self_test_compares_only_member_id pNoId1 pNoId2 (1 : ℚ) none rfl⟩

/-! ## C6: symmetry of the substring and cluster rules -/

lemma list_any_ext {α : Type} (l : List α) (f g : α → Bool)
    (h : ∀ x, f x = g x) : l.any f = l.any g := by
  induction l with
  | nil => rfl
  | cons a t ih => simp only [List.any_cons, h a, ih]

/-- C6: the direct-substring rule and the semantic-cluster rule of
`matchesNeedAsset` each return the same truth value when the "need" and
"asset" arguments are swapped, and hence so does their disjunction (the
directional pattern-pair rule is exempt from this law). -/
theorem matcher_substring_cluster_commutative (need asset : String) :
    directMatch need asset = directMatch asset need ∧
    clusterMatch need asset = clusterMatch asset need ∧
    (directMatch need asset || clusterMatch need asset) =
      (directMatch asset need || clusterMatch asset need) := by
  have hdir : directMatch need asset = directMatch asset need := by
    unfold directMatch
    exact Bool.or_comm _ _
  have hclu : clusterMatch need asset = clusterMatch asset need := by
    unfold clusterMatch
    exact list_any_ext _ _ _ (fun e => Bool.and_comm _ _)
  exact ⟨hdir, hclu, by rw [hdir, hclu]⟩

/-! ## C4 / C5: cosine similarity -/

lemma dotOver_self_nonneg (n : ℕ) (v : List ℝ) : 0 ≤ dotOver n v v :=
  Finset.sum_nonneg (fun _ _ => mul_self_nonneg _)

lemma abs_dotOver_le (n : ℕ) (v1 v2 : List ℝ) :
    |dotOver n v1 v2| ≤ Real.sqrt (dotOver n v1 v1) * Real.sqrt (dotOver n v2 v2) := by
  have hcs : (dotOver n v1 v2) ^ 2 ≤ (dotOver n v1 v1) * (dotOver n v2 v2) := by
    unfold dotOver
    have h := Finset.sum_mul_sq_le_sq_mul_sq (Finset.range n)
      (fun i => v1.getD i 0) (fun i => v2.getD i 0)
    simpa [pow_two] using h
  calc |dotOver n v1 v2|
      = Real.sqrt ((dotOver n v1 v2) ^ 2) := (Real.sqrt_sq_eq_abs _).symm
    _ ≤ Real.sqrt ((dotOver n v1 v1) * (dotOver n v2 v2)) := Real.sqrt_le_sqrt hcs
    _ = Real.sqrt (dotOver n v1 v1) * Real.sqrt (dotOver n v2 v2) :=
        Real.sqrt_mul (dotOver_self_nonneg n v1) _

lemma cosineSimilarity_mem_Icc (o1 o2 : Option (List ℝ)) :
    -1 ≤ cosineSimilarity o1 o2 ∧ cosineSimilarity o1 o2 ≤ 1 := by
  match o1, o2 with
  | none, o2 => exact ⟨by norm_num [cosineSimilarity], by norm_num [cosineSimilarity]⟩
  | some v1, none => exact ⟨by norm_num [cosineSimilarity], by norm_num [cosineSimilarity]⟩
  | some v1, some v2 =>
    unfold cosineSimilarity
    dsimp only
    split_ifs with hlen hzero
    · constructor <;> norm_num
    · have h1 : 0 < dotOver v1.length v1 v1 :=
        lt_of_le_of_ne (dotOver_self_nonneg _ _)
          (fun h => (not_or.mp hzero).1 h.symm)
      have h2 : 0 < dotOver v1.length v2 v2 :=
        lt_of_le_of_ne (dotOver_self_nonneg _ _)
          (fun h => (not_or.mp hzero).2 h.symm)
      have hD : 0 < Real.sqrt (dotOver v1.length v1 v1) *
          Real.sqrt (dotOver v1.length v2 v2) :=
        mul_pos (Real.sqrt_pos.mpr h1) (Real.sqrt_pos.mpr h2)
      have habs : |dotOver v1.length v1 v2 /
          (Real.sqrt (dotOver v1.length v1 v1) *
            Real.sqrt (dotOver v1.length v2 v2))| ≤ 1 := by
        rw [abs_div, abs_of_pos hD]
        exact (div_le_one hD).mpr (abs_dotOver_le v1.length v1 v2)
      exact abs_le.mp habs
    · constructor <;> norm_num

/-- C4: `cosineSimilarity` is total and degrades to exactly 0 when either
vector is absent, the lengths differ or either accumulated norm is zero,
and its value always lies in `[-1, 1]` (so in particular on every
non-degenerate numeric input). -/
theorem cosineSimilarity_contract :
    (∀ o : Option (List ℝ), cosineSimilarity none o = 0) ∧
    (∀ o : Option (List ℝ), cosineSimilarity o none = 0) ∧
    (∀ v1 v2 : List ℝ, v1.length ≠ v2.length →
      cosineSimilarity (some v1) (some v2) = 0) ∧
    (∀ v1 v2 : List ℝ, v1.length = v2.length →
      (dotOver v1.length v1 v1 = 0 ∨ dotOver v1.length v2 v2 = 0) →
      cosineSimilarity (some v1) (some v2) = 0) ∧
    (∀ o1 o2 : Option (List ℝ),
      -1 ≤ cosineSimilarity o1 o2 ∧ cosineSimilarity o1 o2 ≤ 1) := by
  refine ⟨fun o => rfl, fun o => ?_, fun v1 v2 h => ?_, fun v1 v2 hlen hzero => ?_,
    cosineSimilarity_mem_Icc⟩
  · cases o <;> rfl
  · unfold cosineSimilarity
    dsimp only
    rw [if_neg h]
  · unfold cosineSimilarity
    dsimp only
    rw [if_pos hlen, if_pos hzero]

/-- C4, witness: a length mismatch degrades to 0. -/
theorem cosineSimilarity_contract_witness :
    [(1 : ℝ)].length ≠ ([] : List ℝ).length ∧
    cosineSimilarity (some [(1 : ℝ)]) (some ([] : List ℝ)) = 0 :=
  ⟨by simp, cosineSimilarity_contract.2.2.1 [(1 : ℝ)] [] (by simp)⟩

/-- C5, counterexample: the zero vector is a vector, and
`cosineSimilarity(v, v)` is 0 — not 1 — when `v` has zero magnitude, because
the zero-norm guard fires first. -/
theorem cosineSimilarity_self_zero_vector_ne_one :
    cosineSimilarity (some [(0 : ℝ)]) (some [(0 : ℝ)]) ≠ 1 := by
  have h : cosineSimilarity (some [(0 : ℝ)]) (some [(0 : ℝ)]) = 0 := by
    unfold cosineSimilarity
    dsimp only
    rw [if_pos rfl, if_pos (Or.inl (by norm_num [dotOver]))]
  rw [h]
  norm_num

lemma getD_replicate_zero (n i : ℕ) : (List.replicate n (0 : ℝ)).getD i 0 = 0 := by
  rcases lt_or_ge i n with h | h
  · simp [List.getD, List.getElem?_replicate, h]
  · simp [List.getD, List.getElem?_replicate, Nat.not_lt.mpr h]

/-- C5, amended: `cosineSimilarity(v, v) = 1` exactly (in the real-number
idealization of floats) for every vector `v` of *nonzero magnitude*, and
`cosineSimilarity(v, zeroVector) = 0` for every vector `v` and every length
of zero vector; for a zero-magnitude `v` the self-similarity is 0, not 1. -/
theorem cosineSimilarity_self_one_and_zero_vector :
    (∀ v : List ℝ, dotOver v.length v v ≠ 0 →
      cosineSimilarity (some v) (some v) = 1) ∧
    (∀ (v : List ℝ) (n : ℕ),
      cosineSimilarity (some v) (some (List.replicate n 0)) = 0) := by
  constructor
  · intro v hv
    unfold cosineSimilarity
    dsimp only
    rw [if_pos rfl, if_neg (by tauto)]
    rw [Real.mul_self_sqrt (dotOver_self_nonneg _ _)]
    exact div_self hv
  · intro v n
    unfold cosineSimilarity
    dsimp only
    by_cases hlen : v.length = (List.replicate n (0 : ℝ)).length
    · rw [if_pos hlen, if_pos (Or.inr ?_)]
      unfold dotOver
      exact Finset.sum_eq_zero (fun i _ => by rw [getD_replicate_zero]; ring)
    · rw [if_neg hlen]

/-- C5, witness: a unit vector has self-similarity exactly 1. -/
theorem cosineSimilarity_self_one_witness :
    dotOver [(1 : ℝ)].length [(1 : ℝ)] [(1 : ℝ)] ≠ 0 ∧
    cosineSimilarity (some [(1 : ℝ)]) (some [(1 : ℝ)]) = 1 :=
  ⟨by norm_num [dotOver],
    cosineSimilarity_self_one_and_zero_vector.1 [(1 : ℝ)] (by norm_num [dotOver])⟩

/-! ## C8: one poisoned record never aborts ranking -/

lemma scoreOneCandidate_poisoned_score (member : Profile)
    (e : Option (List ℝ)) (c : Candidate) (h : isPoisoned c = true) :
    (scoreOneCandidate member e c).score = 0 := by
  unfold scoreOneCandidate
  unfold isPoisoned at h
  match hc : c.embedding_ops with
  | .error msg => rfl
  | .ok v => rw [hc] at h; exact absurd h (by simp)

lemma scoreOneCandidate_ok_score_pos (member : Profile)
    (e : Option (List ℝ)) (c : Candidate)
    (hid : c.profile.member_id ≠ member.member_id) (h : isPoisoned c = false) :
    0 < (scoreOneCandidate member e c).score := by
  unfold scoreOneCandidate
  unfold isPoisoned at h
  match hc : c.embedding_ops with
  | .error msg => rw [hc] at h; exact absurd h (by simp)
  | .ok v =>
    dsimp only
    have hlb := calculateMatchScore_score_lb member c.profile
      (s := cosineSimilarity e (some v)) none (fun heq => hid heq.symm)
      (cosineSimilarity_mem_Icc e (some v)).1
    omega

/-- C8: ranking a candidate pool in which exactly one record's scoring
throws (a malformed stored vector, recorded with its logged error message)
yields exactly `N - 1` valid (score > 0) entries after the filter-and-sort
step — the poisoned record is excluded and every other candidate is still
scored. -/
theorem rank_pool_with_one_poisoned_record (member : Profile)
    (memberEmbedding : Option (List ℝ)) (candidates : List Candidate)
    (hone : candidates.countP isPoisoned = 1)
    (hid : ∀ c ∈ candidates, c.profile.member_id ≠ member.member_id) :
    (rankCandidatePool member memberEmbedding candidates).length =
      candidates.length - 1 := by
  unfold rankCandidatePool scoreCandidatePool
  rw [List.length_mergeSort]
  rw [← List.countP_eq_length_filter, List.countP_map]
  have hcong : candidates.countP
      ((fun s : ScoredCandidate => decide (0 < s.score)) ∘
        scoreOneCandidate member memberEmbedding) =
      candidates.countP (fun c => !isPoisoned c) := by
    apply List.countP_congr
    intro c hc
    simp only [Function.comp_apply]
    cases hp : isPoisoned c with
    | true =>
      simp [scoreOneCandidate_poisoned_score member memberEmbedding c hp]
    | false =>
      simp [scoreOneCandidate_ok_score_pos member memberEmbedding c (hid c hc) hp]
  rw [hcong]
  have hsplit := List.length_eq_countP_add_countP (l := candidates) isPoisoned
  have hcompl : candidates.countP (fun a => !isPoisoned a) =
      candidates.countP (fun a => decide ¬isPoisoned a = true) := by
    apply List.countP_congr
    intro a _
    simp
  omega

/-- A candidate whose stored embedding fails to parse. -/
def candPoisoned : Candidate := ⟨pB, .error "Unexpected token in JSON"⟩

/-- A healthy candidate. -/
def candOk : Candidate := ⟨pNoId1, .ok []⟩

/-- C8, witness: a pool of 2 with one poisoned record yields exactly 1
ranked result. -/
theorem rank_pool_with_one_poisoned_record_witness :
    [candPoisoned, candOk].countP isPoisoned = 1 ∧
    (∀ c ∈ [candPoisoned, candOk], c.profile.member_id ≠ pA.member_id) ∧
    (rankCandidatePool pA none [candPoisoned, candOk]).length = 1 :=
  ⟨by decide, by decide,
    rank_pool_with_one_poisoned_record pA none [candPoisoned, candOk]
      (by decide) (by decide)⟩

/-! ## C9: the fallback rationale generator -/

lemma ne_empty_of_length_pos {s : String} (h : 0 < s.length) : s ≠ "" := by
  intro heq
  subst heq
  simp at h

lemma headD_mem {α : Type} (l : List α) (d : α) (h : l ≠ []) : l.headD d ∈ l := by
  cases l with
  | nil => exact absurd rfl h
  | cons a t => exact List.mem_cons_self a t

lemma match_sentence_one_ne_empty (a b c : String) :
    a ++ "'s " ++ b ++ " can help with your need for " ++ c ≠ "" := by
  apply ne_empty_of_length_pos
  simp only [String.length_append]
  have h : 0 < "'s ".length := by decide
  omega

lemma match_sentence_two_ne_empty (a b c : String) :
    "Your " ++ a ++ " can help " ++ b ++ "'s need for " ++ c ≠ "" := by
  apply ne_empty_of_length_pos
  simp only [String.length_append]
  have h : 0 < "Your ".length := by decide
  omega

/-- C9: `generateSimpleRationale` is a pure total function producing three
non-empty fields for every pair of profiles, however sparse, and whenever
every staged text-generation call fails or times out the rationale returned
by `generateMatchRationale` is exactly what the fallback generator
independently produces for that pair. -/
theorem fallback_rationale_contract :
    (∀ m1 m2 : Profile,
      (generateSimpleRationale m1 m2).rationale_ops ≠ "" ∧
      (generateSimpleRationale m1 m2).creative_angle ≠ "" ∧
      (generateSimpleRationale m1 m2).intro_basis ≠ "") ∧
    (∀ (m1 m2 : Profile) (e1 e2 e3 : String),
      generateMatchRationale m1 m2 (.error e1) (.error e2) (.error e3) =
        generateSimpleRationale m1 m2) := by
  constructor
  · intro m1 m2
    refine ⟨?_, ?_, ?_⟩
    · unfold generateSimpleRationale
      dsimp only
      split_ifs with hlen
      · have hmem := headD_mem _ "" (List.length_pos.mp hlen)
        rcases List.mem_append.mp hmem with hm | hm
        · rcases List.mem_flatMap.mp hm with ⟨need, _, hx⟩
          rcases List.mem_map.mp hx with ⟨asset, _, heq⟩
          rw [← heq]
          exact match_sentence_one_ne_empty _ _ _
        · rcases List.mem_flatMap.mp hm with ⟨need, _, hx⟩
          rcases List.mem_map.mp hx with ⟨asset, _, heq⟩
          rw [← heq]
          exact match_sentence_two_ne_empty _ _ _
      · apply ne_empty_of_length_pos
        simp only [String.length_append]
        have h : 0 < "Both in ".length := by decide
        omega
    · unfold generateSimpleRationale
      dsimp only
      split_ifs
      · decide
      · apply ne_empty_of_length_pos
        simp only [String.length_append]
        have h : 0 < "Explore synergies between ".length := by decide
        omega
    · unfold generateSimpleRationale
      dsimp only
      apply ne_empty_of_length_pos
      simp only [String.length_append]
      have h : 0 < "Start by discussing ".length := by decide
      omega
  · intro m1 m2 e1 e2 e3
    rfl
